import Mathlib

/-!
Verification model of the call-session engine of `AudioCallApp`
(`src/components/AudioCallApp.tsx`).

The component is embedded as an explicit state machine: the React component
state, the mutable refs (`wsRef`, `mediaStreamRef`, `mediaRecorderRef`) and
the browser objects they point to become fields of `AppState`; every event
handler of the source (WebSocket callbacks, `MediaRecorder.ondataavailable`,
the two `setTimeout` continuations, and the user-facing click handlers)
becomes one constructor of `Event`, and `step` executes exactly the body of
the corresponding handler.  A run of the app is a fold of `step` over a list
of events, starting from the component's initial state.

Modelling decisions, each tied to a construct of the source:

* React closure capture.  The WebSocket handlers installed by
  `connectToLiveAPI` (and the `mediaRecorder.ondataavailable` handler created
  lexically inside the `setupComplete` branch of `onmessage`) close over the
  `callState` binding of the render in which `connectToLiveAPI` was invoked.
  Later `setCallState` calls produce a new state object for later renders but
  never mutate that captured binding, and the handlers are never reassigned
  on the socket.  The captured snapshot is the `handlersEnv` field, recorded
  when the connection is created; handler code reads `isMuted` /
  `speakerEnabled` from it, while reads through refs (`wsRef.current` etc.)
  are live.
* `setTimeout` continuations (the 100 ms setup send in `onopen` and the
  500 ms recorder start in the `setupComplete` branch) are modelled as
  pending flags armed by the handler plus separate fire events, because the
  source re-checks ref liveness and `readyState` at fire time.
* A browser WebSocket `error` event is fired only when the connection is
  failing/closing; `readyState` is no longer OPEN at that point and a
  `close` event follows.  `wsErrorH` therefore also marks the connection
  closed.
* Outbound sends, toast notifications and playback attempts are effects, not
  component state; they are recorded in the instrumentation history fields
  `sentLog`, `toastLog`, `playLog`, `binaryPlayLog` of `AppState` so that
  trace properties can be stated.  `AppState.core` projects those histories
  away and is the program state proper.
* JS truthiness: `parts.find(part => part.text)` skips a part whose `text`
  is the empty string (falsy), hence `hasTextJS`; an empty `parts` array is
  truthy, hence `Option` for presence.
* `mimeType.startsWith('audio/')` is embedded as a character-list prefix
  test (`isPrefixOfB`), extensionally the same predicate, because it must
  evaluate inside the kernel on concrete runs.
* In `playAudioResponse` the `audio.play()` rejection handler runs as a
  promise continuation, strictly after the synchronous `if (audioUrl) break`
  check of the same loop iteration, so an asynchronous rejection can never
  drive the loop to the next candidate type; only a synchronous exception in
  the `try` block (Blob/URL/Audio construction or a synchronous `play`
  throw) reaches the `catch`/`continue`.  The loop is embedded as
  `tryTypesLoop`, parameterised by a `syncThrows` oracle (which candidate
  types throw synchronously) and an `asyncRejects` oracle (which play
  promises reject).  The base64 `atob` decode wrapped by the outer
  `try/catch` is assumed to succeed: the byte content never influences the
  control flow of the type loop.
* Asynchronous completions that only affect the `isRecording` indicator
  (promise `then`, `ended` listeners, binary `decodeAudioData` callbacks)
  are folded into the step where their operation starts, or omitted when
  they merely clear the indicator later; no claim depends on them.
-/

namespace AudioCall

/-- Character-list prefix test; kernel-evaluable embedding of
`String.startsWith`. -/
def isPrefixOfB (p s : String) : Bool :=
  p.data.isPrefixOf s.data

/-- `status` field of `CallState`:
`'idle' | 'connecting' | 'connected' | 'disconnected'`. -/
inductive Status
  | idle
  | connecting
  | connected
  | disconnected
deriving DecidableEq, Repr

/-- The `CallState` interface of the component. -/
structure CallState where
  isActive : Bool
  startTime : Option Nat
  duration : String
  isMuted : Bool
  speakerEnabled : Bool
  status : Status
deriving DecidableEq, Repr

/-- The initial value passed to `useState<CallState>`, also the reset value
used by `endCall`. -/
def initialCallState : CallState :=
  { isActive := false
    startTime := none
    duration := "00:00"
    isMuted := false
    speakerEnabled := true
    status := Status.idle }

/-- `speaker` tag of a `ConversationMessage`. -/
inductive Speaker
  | AI
  | User
deriving DecidableEq, Repr

/-- The `ConversationMessage` interface of the component. -/
structure ConversationMessage where
  speaker : Speaker
  message : String
  timestamp : Nat
deriving DecidableEq, Repr

/-- WebSocket `readyState`; `opened` stands for OPEN. -/
inductive ReadyState
  | connecting
  | opened
  | closed
deriving DecidableEq, Repr

/-- The WebSocket object held by `wsRef`. -/
structure WS where
  readyState : ReadyState
deriving DecidableEq, Repr

/-- One `MediaStreamTrack` of the acquired microphone stream. -/
structure Track where
  enabled : Bool
  stopped : Bool
deriving DecidableEq, Repr

/-- The `MediaStream` held by `mediaStreamRef`; all its tracks are audio
tracks. -/
structure MediaStream where
  tracks : List Track
deriving DecidableEq, Repr

/-- `getUserMedia` resolves with a stream whose audio track is live and
enabled. -/
def freshStream : MediaStream :=
  { tracks := [{ enabled := true, stopped := false }] }

/-- `MediaRecorder.state`. -/
inductive RecState
  | recording
  | inactive
deriving DecidableEq, Repr

/-- The `MediaRecorder` held by `mediaRecorderRef`. -/
structure Recorder where
  recState : RecState
deriving DecidableEq, Repr

/-- The `callState` snapshot captured by the closure of `connectToLiveAPI`
(shared by the WebSocket handlers and the `ondataavailable` handler created
inside `onmessage`). -/
structure CapturedCallState where
  isMuted : Bool
  speakerEnabled : Bool
deriving DecidableEq, Repr

/-- `part.inlineData` of a server-content part. -/
structure InlineData where
  mimeType : String
  data : String
deriving DecidableEq, Repr

/-- One element of `data.serverContent.modelTurn.parts`. -/
structure MsgPart where
  text : Option String
  inlineData : Option InlineData
deriving DecidableEq, Repr

/-- A parsed JSON text frame: presence of `serverContent.modelTurn.parts`
and of the `setupComplete` field. -/
structure ServerMsg where
  modelTurnParts : Option (List MsgPart)
  setupComplete : Bool
deriving DecidableEq, Repr

/-- `event.data` of a WebSocket message: a binary `Blob`, a parsable JSON
text, or text on which `JSON.parse` throws. -/
inductive WSData
  | binary (size : Nat)
  | jsonMsg (m : ServerMsg)
  | malformed
deriving DecidableEq, Repr

/-- Messages written to the socket: the single `setup` envelope, and the
`realtimeInput.mediaChunks` envelope wrapping one base64 audio chunk. -/
inductive OutMessage
  | setup
  | realtimeAudio (size : Nat)
deriving DecidableEq, Repr

/-- Is this outbound message an audio chunk envelope? -/
def OutMessage.isAudio : OutMessage → Bool
  | OutMessage.realtimeAudio _ => true
  | OutMessage.setup => false

/-- The toast notifications the component can emit, by title. -/
inductive ToastTag
  | conectado
  | erroConexao
  | chamadaEncerrada
  | permissaoNegada
  | acessoNegado
  | erroMicrofone
deriving DecidableEq, Repr

/-- Outcome of the `getUserMedia` request inside `startCall`:
granted, rejected with `NotAllowedError`, or rejected otherwise. -/
inductive MediaResult
  | granted
  | notAllowed
  | otherErr
deriving DecidableEq, Repr

/-- The candidate list of `playAudioResponse`:
`['audio/mp3', 'audio/wav', 'audio/ogg', mimeType]` — the declared type
comes last. -/
def supportedTypes (declaredMime : String) : List String :=
  ["audio/mp3", "audio/wav", "audio/ogg", declaredMime]

/-- Record of one `playAudioResponse` invocation: the declared type, the
candidate types whose `try` block was entered, whether `audioUrl` was still
non-null after the loop (`setupOk`), and whether the chosen candidate's
play promise resolved (`started`). -/
structure PlayAttempt where
  declared : String
  attempted : List String
  setupOk : Bool
  started : Bool
deriving DecidableEq, Repr

/-- The `for (const type of supportedTypes)` loop.  A candidate whose
synchronous setup throws is caught and the loop continues; otherwise
`audioUrl` is non-null at the `if (audioUrl) break` check (a promise
rejection has not run yet), so the loop stops at the first candidate whose
setup does not throw.  Returns the entered candidates and the chosen one. -/
def tryTypesLoop (syncThrows : String → Bool) : List String → List String × Option String
  | [] => ([], none)
  | t :: rest =>
    if syncThrows t then
      let r := tryTypesLoop syncThrows rest
      (t :: r.1, r.2)
    else ([t], some t)

/-- `playAudioResponse(base64Data, mimeType)` on a payload whose base64
decodes; `'No supported audio format found'` is logged exactly when
`setupOk = false`. -/
def playAudioResponse (syncThrows asyncRejects : String → Bool)
    (declaredMime : String) : PlayAttempt :=
  let r := tryTypesLoop syncThrows (supportedTypes declaredMime)
  match r.2 with
  | some t => { declared := declaredMime, attempted := r.1, setupOk := true,
                started := !(asyncRejects t) }
  | none => { declared := declaredMime, attempted := r.1, setupOk := false,
              started := false }

/-- Was the terminal `'No supported audio format found'` failure logged? -/
def failLogged (a : PlayAttempt) : Bool := !a.setupOk

/-- The whole component state: React state (`callState`, `conversation`,
`isRecording`, `showCallModal`), the refs and the objects they hold, the
captured handler closure, the two pending `setTimeout` continuations, and
the instrumentation histories of emitted effects. -/
structure AppState where
  callState : CallState
  conversation : List ConversationMessage
  isRecording : Bool
  showCallModal : Bool
  ws : Option WS
  mediaStream : Option MediaStream
  mediaRecorder : Option Recorder
  handlersEnv : Option CapturedCallState
  pendingSetupSend : Bool
  pendingRecorderStart : Bool
  sentLog : List OutMessage
  toastLog : List ToastTag
  playLog : List PlayAttempt
  binaryPlayLog : List Nat
deriving DecidableEq, Repr

/-- The program state proper: `AppState` without the effect histories. -/
structure CoreState where
  callState : CallState
  conversation : List ConversationMessage
  isRecording : Bool
  showCallModal : Bool
  ws : Option WS
  mediaStream : Option MediaStream
  mediaRecorder : Option Recorder
  handlersEnv : Option CapturedCallState
  pendingSetupSend : Bool
  pendingRecorderStart : Bool
deriving DecidableEq, Repr

/-- Forget the instrumentation histories. -/
def AppState.core (s : AppState) : CoreState :=
  { callState := s.callState
    conversation := s.conversation
    isRecording := s.isRecording
    showCallModal := s.showCallModal
    ws := s.ws
    mediaStream := s.mediaStream
    mediaRecorder := s.mediaRecorder
    handlersEnv := s.handlersEnv
    pendingSetupSend := s.pendingSetupSend
    pendingRecorderStart := s.pendingRecorderStart }

/-- Component state on mount. -/
def initialState : AppState :=
  { callState := initialCallState
    conversation := []
    isRecording := false
    showCallModal := false
    ws := none
    mediaStream := none
    mediaRecorder := none
    handlersEnv := none
    pendingSetupSend := false
    pendingRecorderStart := false
    sentLog := []
    toastLog := []
    playLog := []
    binaryPlayLog := [] }

/-- `wsRef.current?.readyState === WebSocket.OPEN`. -/
def wsIsOpen (s : AppState) : Bool :=
  match s.ws with
  | some w => w.readyState = ReadyState.opened
  | none => false

/-- The `isMuted` the installed handlers read (from the captured closure). -/
def capturedMuted (s : AppState) : Bool :=
  match s.handlersEnv with
  | some env => env.isMuted
  | none => false

/-- The `speakerEnabled` the installed handlers read (from the captured
closure). -/
def capturedSpeaker (s : AppState) : Bool :=
  match s.handlersEnv with
  | some env => env.speakerEnabled
  | none => false

/-- `endCall`: close and drop the socket, stop and drop the recorder, stop
the stream tracks and drop the stream, reset `callState` to its initial
value, hide the modal, clear the conversation, clear `isRecording`, toast
`'Chamada Encerrada'`.  The captured closure is not a ref and is not
cleared; it merely becomes unreachable with the socket. -/
def endCall (s : AppState) : AppState :=
  { s with
    ws := none
    mediaRecorder := none
    mediaStream := none
    callState := initialCallState
    showCallModal := false
    conversation := []
    isRecording := false
    toastLog := s.toastLog ++ [ToastTag.chamadaEncerrada] }

/-- `connectToLiveAPI` (the synchronous part): create the socket in state
CONNECTING and install the handlers, capturing the `callState` of the
invoking render. -/
def connectToLiveAPI (renderCS : CallState) (s : AppState) : AppState :=
  { s with
    ws := some { readyState := ReadyState.connecting }
    handlersEnv := some { isMuted := renderCS.isMuted
                          speakerEnabled := renderCS.speakerEnabled } }

/-- The greeting the transcript is seeded with on call start. -/
def greetingText : String :=
  "Olá! Estou pronto para nossa conversa por voz. Pode começar a falar!"

/-- `startCall`: if the microphone permission is already `'denied'`, toast
and return; otherwise show the modal, mark the session active/connecting,
seed the transcript, then request the device and, on success, connect.  On
`getUserMedia` rejection toast the classified message and run `endCall`. -/
def startCall (permDenied : Bool) (media : MediaResult) (tNow : Nat)
    (s : AppState) : AppState :=
  if permDenied then
    { s with toastLog := s.toastLog ++ [ToastTag.permissaoNegada] }
  else
    let renderCS := s.callState
    let s1 : AppState :=
      { s with
        showCallModal := true
        callState := { s.callState with
                        isActive := true
                        startTime := some tNow
                        status := Status.connecting }
        conversation := [{ speaker := Speaker.AI, message := greetingText,
                           timestamp := tNow }] }
    match media with
    | MediaResult.granted =>
        connectToLiveAPI renderCS { s1 with mediaStream := some freshStream }
    | MediaResult.notAllowed =>
        endCall { s1 with toastLog := s1.toastLog ++ [ToastTag.acessoNegado] }
    | MediaResult.otherErr =>
        endCall { s1 with toastLog := s1.toastLog ++ [ToastTag.erroMicrofone] }

/-- `onopen`: mark the socket OPEN, set status `'connected'`, arm the 100 ms
setup-send timeout, toast `'Conectado'`. -/
def wsOpenH (s : AppState) : AppState :=
  match s.ws with
  | some w =>
    if w.readyState = ReadyState.connecting then
      { s with
        ws := some { readyState := ReadyState.opened }
        callState := { s.callState with status := Status.connected }
        pendingSetupSend := true
        toastLog := s.toastLog ++ [ToastTag.conectado] }
    else s
  | none => s

/-- The 100 ms timeout from `onopen` fires: if the socket is still there and
OPEN, send the setup message. -/
def fireSetupSend (s : AppState) : AppState :=
  if s.pendingSetupSend then
    let s1 := { s with pendingSetupSend := false }
    if wsIsOpen s1 then { s1 with sentLog := s1.sentLog ++ [OutMessage.setup] }
    else s1
  else s

/-- JS truthiness of `part.text` in `parts.find(part => part.text)`:
present and non-empty. -/
def hasTextJS (p : MsgPart) : Bool :=
  match p.text with
  | some t => decide (t ≠ "")
  | none => false

/-- `parts.find(part => part.text)`. -/
def findTextPart (ps : List MsgPart) : Option MsgPart :=
  ps.find? hasTextJS

/-- `part.inlineData?.mimeType?.startsWith('audio/')`. -/
def isAudioPart (p : MsgPart) : Bool :=
  match p.inlineData with
  | some d => isPrefixOfB "audio/" d.mimeType
  | none => false

/-- `parts.find(part => part.inlineData?.mimeType?.startsWith('audio/'))`. -/
def findAudioPart (ps : List MsgPart) : Option MsgPart :=
  ps.find? isAudioPart

/-- The declared MIME type handed to `playAudioResponse` by the
server-content branch, when an audio part is present. -/
def msgAudioMime (m : ServerMsg) : Option String :=
  match m.modelTurnParts with
  | some ps =>
    match findAudioPart ps with
    | some p =>
      match p.inlineData with
      | some d => some d.mimeType
      | none => none
    | none => none
  | none => none

/-- The `serverContent` block of the JSON branch of `onmessage`: append the
first truthy text part to the conversation, then start playback of the
first audio part when the captured `speakerEnabled` is set. -/
def handleContent (syncThrows asyncRejects : String → Bool) (tNow : Nat)
    (env : CapturedCallState) (m : ServerMsg) (s : AppState) : AppState :=
  match m.modelTurnParts with
  | some ps =>
    let sa :=
      match findTextPart ps with
      | some p =>
        { s with conversation := s.conversation ++
            [{ speaker := Speaker.AI, message := p.text.getD "",
               timestamp := tNow }] }
      | none => s
    match findAudioPart ps with
    | some p =>
      if env.speakerEnabled then
        match p.inlineData with
        | some d =>
          let att := playAudioResponse syncThrows asyncRejects d.mimeType
          { sa with playLog := sa.playLog ++ [att],
                    isRecording := sa.isRecording || att.started }
        | none => sa
      else sa
    | none => sa
  | none => s

/-- The `setupComplete` block of the JSON branch of `onmessage`, run after
the `serverContent` block: set status `'connected'` and, if the stream and
socket refs are live, arm the 500 ms recorder-start timeout. -/
def handleSetupAck (m : ServerMsg) (s : AppState) : AppState :=
  if m.setupComplete then
    let s2 := { s with callState := { s.callState with status := Status.connected } }
    if s2.mediaStream.isSome && s2.ws.isSome then
      { s2 with pendingRecorderStart := true }
    else s2
  else s

/-- The JSON branch of `onmessage`: the `serverContent` block, then the
`setupComplete` block. -/
def handleServerMsg (syncThrows asyncRejects : String → Bool) (tNow : Nat)
    (env : CapturedCallState) (m : ServerMsg) (s : AppState) : AppState :=
  handleSetupAck m (handleContent syncThrows asyncRejects tNow env m s)

/-- `onmessage`: handlers run only while the socket is delivering (OPEN).
Binary frames go to the `FileReader`/`AudioContext` path gated by the
captured `speakerEnabled`; text frames are parsed, and a `JSON.parse` throw
is caught and logged. -/
def wsMessageH (syncThrows asyncRejects : String → Bool) (d : WSData)
    (tNow : Nat) (s : AppState) : AppState :=
  match s.ws, s.handlersEnv with
  | some w, some env =>
    if w.readyState = ReadyState.opened then
      match d with
      | WSData.binary size =>
        if env.speakerEnabled then
          { s with binaryPlayLog := s.binaryPlayLog ++ [size] }
        else s
      | WSData.jsonMsg m => handleServerMsg syncThrows asyncRejects tNow env m s
      | WSData.malformed => s
    else s
  | _, _ => s

/-- The 500 ms timeout from the `setupComplete` branch fires: if the stream
ref is live and the socket is OPEN, create and start the `MediaRecorder`. -/
def fireRecorderStart (s : AppState) : AppState :=
  if s.pendingRecorderStart then
    let s1 := { s with pendingRecorderStart := false }
    if s1.mediaStream.isSome && wsIsOpen s1 then
      { s1 with mediaRecorder := some { recState := RecState.recording } }
    else s1
  else s

/-- `sendAudioData`: re-check the socket, then send the
`realtimeInput.mediaChunks` envelope. -/
def sendAudioData (size : Nat) (s : AppState) : AppState :=
  if wsIsOpen s then
    { s with sentLog := s.sentLog ++ [OutMessage.realtimeAudio size] }
  else s

/-- `mediaRecorder.ondataavailable`: forward the chunk when it is non-empty,
the socket is OPEN, and the captured `isMuted` is clear. -/
def dataAvailableH (size : Nat) (s : AppState) : AppState :=
  match s.mediaRecorder, s.handlersEnv with
  | some _, some env =>
    if 0 < size ∧ wsIsOpen s = true ∧ env.isMuted = false then
      sendAudioData size s
    else s
  | _, _ => s

/-- `onclose`: status `'disconnected'`; the socket is closed. -/
def wsCloseH (s : AppState) : AppState :=
  match s.ws with
  | some _ =>
    { s with
      ws := some { readyState := ReadyState.closed }
      callState := { s.callState with status := Status.disconnected } }
  | none => s

/-- `onerror`: status `'disconnected'`, toast `'Erro de Conexão'`; an error
event means the connection is failing, so the socket is no longer OPEN. -/
def wsErrorH (s : AppState) : AppState :=
  match s.ws with
  | some _ =>
    { s with
      ws := some { readyState := ReadyState.closed }
      callState := { s.callState with status := Status.disconnected }
      toastLog := s.toastLog ++ [ToastTag.erroConexao] }
  | none => s

/-- `toggleMute`: flip `isMuted` via the functional update, then set every
audio track's `enabled` to the `callState.isMuted` of the invoking render —
the pre-toggle value. -/
def setTrackEnabled (b : Bool) (tr : Track) : Track :=
  { tr with enabled := b }

/-- See `setTrackEnabled`. -/
def toggleMute (s : AppState) : AppState :=
  let pre := s.callState.isMuted
  { s with
    callState := { s.callState with isMuted := !pre }
    mediaStream := s.mediaStream.map
      (fun ms => { tracks := ms.tracks.map (setTrackEnabled pre) }) }

/-- `toggleSpeaker`: flip `speakerEnabled`. -/
def toggleSpeaker (s : AppState) : AppState :=
  { s with callState := { s.callState with
             speakerEnabled := !s.callState.speakerEnabled } }

/-- One observable occurrence in a run: a user click, a socket event, a
recorder chunk, or a timeout firing. -/
inductive Event
  | clickStartCall (permDenied : Bool) (media : MediaResult) (tNow : Nat)
  | wsOpen
  | fireSetup
  | wsMessage (d : WSData) (tNow : Nat)
  | fireRecorder
  | dataAvailable (size : Nat)
  | wsClose
  | wsError
  | clickEndCall
  | clickToggleMute
  | clickToggleSpeaker
deriving DecidableEq, Repr

/-- Dispatch one event to the handler the source attaches to it. -/
def step (syncThrows asyncRejects : String → Bool) (s : AppState) :
    Event → AppState
  | Event.clickStartCall pd m t => startCall pd m t s
  | Event.wsOpen => wsOpenH s
  | Event.fireSetup => fireSetupSend s
  | Event.wsMessage d t => wsMessageH syncThrows asyncRejects d t s
  | Event.fireRecorder => fireRecorderStart s
  | Event.dataAvailable n => dataAvailableH n s
  | Event.wsClose => wsCloseH s
  | Event.wsError => wsErrorH s
  | Event.clickEndCall => endCall s
  | Event.clickToggleMute => toggleMute s
  | Event.clickToggleSpeaker => toggleSpeaker s

/-- Run a list of events from a given state. -/
def runFrom (syncThrows asyncRejects : String → Bool) (s : AppState)
    (es : List Event) : AppState :=
  es.foldl (step syncThrows asyncRejects) s

/-- Run a list of events from the mount state. -/
def run (syncThrows asyncRejects : String → Bool) (es : List Event) : AppState :=
  runFrom syncThrows asyncRejects initialState es

/-- Is this event the arrival of a control message carrying
`setupComplete`? -/
def Event.isSetupAck : Event → Bool
  | Event.wsMessage (WSData.jsonMsg m) _ => m.setupComplete
  | _ => false

/-- Is this event a start-call click? -/
def Event.isStartClick : Event → Bool
  | Event.clickStartCall _ _ _ => true
  | _ => false

/-- Does this event report the connection open or acknowledge the
handshake?  These are the only two handlers that set status
`'connected'`. -/
def Event.opensOrAck : Event → Bool
  | Event.wsOpen => true
  | Event.wsMessage (WSData.jsonMsg m) _ => m.setupComplete
  | _ => false

/-- The gate of `mediaRecorder.ondataavailable` as the source evaluates it:
handler installed (recorder and captured closure live), non-empty chunk,
socket OPEN at submission, and the *captured* `isMuted` clear. -/
def dataGate (s : AppState) (size : Nat) : Bool :=
  s.mediaRecorder.isSome && s.handlersEnv.isSome &&
    decide (0 < size) && wsIsOpen s && !(capturedMuted s)

/-- The playback attempts one JSON message contributes, given the value of
the gate the handler evaluates. -/
def playOutcome (syncThrows asyncRejects : String → Bool) (gate : Bool)
    (m : ServerMsg) : List PlayAttempt :=
  match msgAudioMime m with
  | some mt => if gate then [playAudioResponse syncThrows asyncRejects mt] else []
  | none => []

/-- The transcript entries one JSON message contributes. -/
def textOutcome (tNow : Nat) (m : ServerMsg) : List ConversationMessage :=
  match m.modelTurnParts with
  | some ps =>
    match findTextPart ps with
    | some p => [{ speaker := Speaker.AI, message := p.text.getD "",
                   timestamp := tNow }]
    | none => []
  | none => []

/-- Constantly-false oracle: no candidate type throws synchronously / no
play promise rejects. -/
def noFail : String → Bool := fun _ => false

/-- Constantly-true rejection oracle: every play promise rejects
(unsupported codec everywhere). -/
def allReject : String → Bool := fun _ => true

/-- A start-call click with permission grantable and the device granted. -/
def startEv : Event := Event.clickStartCall false MediaResult.granted 0

/-- A control message that is only the handshake acknowledgment. -/
def setupMsg : ServerMsg := { modelTurnParts := none, setupComplete := true }

/-- A server-content message carrying a single inline-audio part. -/
def audioMsg : ServerMsg :=
  ServerMsg.mk (some [MsgPart.mk none (some (InlineData.mk "audio/pcm" "AAAA"))]) false

/-- A text part (JS-truthy: non-empty). -/
def textPartEx : MsgPart := MsgPart.mk (some "hi") none

/-- An inline-audio part. -/
def audioPartEx : MsgPart := MsgPart.mk none (some (InlineData.mk "audio/pcm" "AAAA"))

/-- A server-content message carrying both a text part and an inline-audio
part. -/
def bothMsg : ServerMsg := ServerMsg.mk (some [textPartEx, audioPartEx]) false

/-- Run: call started, connection opens, and nothing else. -/
def exC1 : List Event := [startEv, Event.wsOpen]

/-- Run: call started, opened, setup sent, a chunk arrives, but no
`setupComplete` was ever received. -/
def exC2 : List Event :=
  [startEv, Event.wsOpen, Event.fireSetup, Event.dataAvailable 3]

/-- Run: full handshake, recorder started, then the user mutes, then a chunk
arrives. -/
def exC3 : List Event :=
  [startEv, Event.wsOpen, Event.fireSetup,
   Event.wsMessage (WSData.jsonMsg setupMsg) 1, Event.fireRecorder,
   Event.clickToggleMute, Event.dataAvailable 5]

/-- Run: full handshake, recorder started, then the connection errors. -/
def exC4 : List Event :=
  [startEv, Event.wsOpen, Event.fireSetup,
   Event.wsMessage (WSData.jsonMsg setupMsg) 1, Event.fireRecorder,
   Event.wsError]

/-- Run: call started and opened, the user toggles the speaker off, then an
inline-audio payload arrives. -/
def exC6 : List Event :=
  [startEv, Event.wsOpen, Event.fireSetup, Event.clickToggleSpeaker,
   Event.wsMessage (WSData.jsonMsg audioMsg) 2]

/-- Run: call started and opened; used as the pre-state of witnesses. -/
def sOpen : AppState := run noFail noFail [startEv, Event.wsOpen]

/-- State right after a granted start-call click. -/
def sStarted : AppState := run noFail noFail [startEv]

/-- The connection is gone or closed: no send can succeed any more. -/
def wsDown (s : AppState) : Prop :=
  s.ws = none ∨ s.ws = some (WS.mk ReadyState.closed)

/-- State just before the error of `exC4`: handshake done, recorder
running. -/
def sPreErr : AppState := run noFail noFail (exC4.take 5)

/-- Auxiliary: the attempted candidates and the chosen candidate of the
`for` loop, as functions of the synchronous-throw oracle. -/
theorem tryTypesLoop_spec (sf : String → Bool) (l : List String) :
    (tryTypesLoop sf l).1 = l.takeWhile sf ++ (l.dropWhile sf).take 1 ∧
    ((tryTypesLoop sf l).2 = none ↔ l.all sf = true) := by
  induction l with
  | nil => simp [tryTypesLoop]
  | cons t rest ih =>
    by_cases h : sf t = true
    · simpa [tryTypesLoop, h, List.takeWhile_cons, List.dropWhile_cons] using ih
    · simp [tryTypesLoop, h, List.takeWhile_cons, List.dropWhile_cons,
        Bool.eq_false_iff.mpr h]

/-- Claim C5, counterexample: for the payload with declared type
`audio/pcm`, in an environment where no candidate's setup throws but every
play promise is rejected (the declared codec unsupported by the facility),
the code attempts only `audio/mp3`: the declared type is not attempted
first — it is never attempted — no fallback candidate is tried after the
rejection, and no decode failure is logged even though nothing played. -/
theorem C5_counterexample :
    (playAudioResponse noFail allReject "audio/pcm").attempted = ["audio/mp3"] ∧
    (playAudioResponse noFail allReject "audio/pcm").attempted.contains "audio/pcm" = false ∧
    (playAudioResponse noFail allReject "audio/pcm").started = false ∧
    failLogged (playAudioResponse noFail allReject "audio/pcm") = false := by
  decide

/-- Claim C5, amended: for every inbound payload, playback candidates are
tried in the fixed order `audio/mp3`, `audio/wav`, `audio/ogg` and the
declared MIME type last; the loop advances past a candidate only when that
candidate's synchronous setup throws (an asynchronous play rejection never
triggers the next candidate — the attempted list does not depend on the
rejection oracle), and the terminal decode failure is logged exactly when
every candidate's setup throws. -/
theorem C5_attempt_order (sf ar : String → Bool) (declared : String) :
    (playAudioResponse sf ar declared).attempted =
      (supportedTypes declared).takeWhile sf ++
        ((supportedTypes declared).dropWhile sf).take 1 ∧
    (failLogged (playAudioResponse sf ar declared) = true ↔
      (supportedTypes declared).all sf = true) ∧
    (playAudioResponse sf ar declared).attempted =
      (playAudioResponse sf noFail declared).attempted := by
  have h := tryTypesLoop_spec sf (supportedTypes declared)
  unfold playAudioResponse failLogged
  rcases hc : (tryTypesLoop sf (supportedTypes declared)).2 with _ | t <;>
    simp [hc] at h ⊢ <;> tauto

/-- Claim C7: the end-call operation (from any state whatever, in
particular from any of the four statuses) resets the session to its idle
defaults — status `idle`, no start time, unmuted, speaker enabled, empty
transcript, socket, stream and recorder references all released — and it is
idempotent: a second call leaves the program state exactly as the first
left it. -/
theorem C7_endCall_resets_idempotent (sf ar : String → Bool) (s : AppState) :
    step sf ar s Event.clickEndCall = endCall s ∧
    (endCall (endCall s)).core = (endCall s).core ∧
    (endCall s).callState = initialCallState ∧
    (endCall s).ws = none ∧
    (endCall s).mediaStream = none ∧
    (endCall s).mediaRecorder = none ∧
    (endCall s).conversation = [] ∧
    (endCall s).isRecording = false ∧
    (endCall s).showCallModal = false :=
  ⟨rfl, rfl, rfl, rfl, rfl, rfl, rfl, rfl, rfl⟩

/-- Claim C9: when the microphone permission is already reported denied,
the start-call click emits exactly one permission toast and changes nothing
else: the program state (modal, call state, transcript, stream, socket,
recorder, pending timers) is untouched and nothing is sent or played. -/
theorem C9_denied_no_state_change (sf ar : String → Bool) (s : AppState)
    (media : MediaResult) (t : Nat) :
    (step sf ar s (Event.clickStartCall true media t)).core = s.core ∧
    (step sf ar s (Event.clickStartCall true media t)).toastLog =
      s.toastLog ++ [ToastTag.permissaoNegada] ∧
    (step sf ar s (Event.clickStartCall true media t)).sentLog = s.sentLog ∧
    (step sf ar s (Event.clickStartCall true media t)).playLog = s.playLog ∧
    (step sf ar s (Event.clickStartCall true media t)).binaryPlayLog =
      s.binaryPlayLog := by
  refine ⟨?_, ?_, ?_, ?_, ?_⟩ <;> simp [step, startCall, AppState.core]

/-- Claim C3, counterexample: in the run where the handshake completes, the
recorder starts, and the user then toggles mute, a chunk submitted while
the session's current `isMuted` is `true` (and the connection open) is
still forwarded: the gate reads the stale captured value, so the claimed
iff — forwarded exactly when open and currently unmuted — is false. -/
theorem C3_counterexample :
    (run noFail noFail (exC3.take 6)).callState.isMuted = true ∧
    wsIsOpen (run noFail noFail (exC3.take 6)) = true ∧
    (run noFail noFail exC3).sentLog =
      [OutMessage.setup, OutMessage.realtimeAudio 5] := by
  decide

/-- Claim C3, amended: a captured chunk is forwarded iff, at submission,
the recorder and its captured closure are live, the chunk is non-empty, the
connection's readyState is open, and the `isMuted` value captured when the
connection's handlers were installed (not the session's current `isMuted`)
is false; chunks failing the gate are dropped — the program state is
unchanged either way, so nothing is queued or retried. -/
theorem C3_forward_gate (sf ar : String → Bool) (s : AppState) (size : Nat) :
    ((step sf ar s (Event.dataAvailable size)).sentLog =
      if dataGate s size then s.sentLog ++ [OutMessage.realtimeAudio size]
      else s.sentLog) ∧
    (step sf ar s (Event.dataAvailable size)).core = s.core := by
  unfold step dataAvailableH sendAudioData dataGate capturedMuted
  rcases hrec : s.mediaRecorder with _ | r <;>
    rcases henv : s.handlersEnv with _ | env <;>
    simp [hrec, henv, AppState.core] <;>
    by_cases h1 : 0 < size <;> by_cases h2 : wsIsOpen s = true <;>
      by_cases h3 : env.isMuted = false <;>
      simp [h1, h2, h3, hrec, henv, AppState.core]

/-- Auxiliary: when the gate is false, a message contributes no playback
attempt. -/
theorem playOutcome_false (sf ar : String → Bool) (m : ServerMsg) :
    playOutcome sf ar false m = [] := by
  unfold playOutcome
  rcases msgAudioMime m with _ | mt <;> simp

/-- Auxiliary: the `setupComplete` block does not touch the playback log. -/
theorem handleSetupAck_playLog (m : ServerMsg) (s : AppState) :
    (handleSetupAck m s).playLog = s.playLog := by
  unfold handleSetupAck
  by_cases h : m.setupComplete = true <;> simp [h] <;> split <;> rfl

/-- Auxiliary: the `setupComplete` block does not touch the transcript. -/
theorem handleSetupAck_conversation (m : ServerMsg) (s : AppState) :
    (handleSetupAck m s).conversation = s.conversation := by
  unfold handleSetupAck
  by_cases h : m.setupComplete = true <;> simp [h] <;> split <;> rfl

/-- Auxiliary: the status after the `setupComplete` block. -/
theorem handleSetupAck_status (m : ServerMsg) (s : AppState) :
    (handleSetupAck m s).callState.status =
      if m.setupComplete then Status.connected else s.callState.status := by
  unfold handleSetupAck
  by_cases h : m.setupComplete = true <;> simp [h] <;> split <;> simp

/-- Auxiliary: the playback attempts the `serverContent` block appends. -/
theorem handleContent_playLog (sf ar : String → Bool) (t : Nat)
    (env : CapturedCallState) (m : ServerMsg) (s : AppState) :
    (handleContent sf ar t env m s).playLog =
      s.playLog ++ playOutcome sf ar env.speakerEnabled m := by
  unfold handleContent playOutcome msgAudioMime
  rcases hmp : m.modelTurnParts with _ | ps
  · simp
  · rcases hft : findTextPart ps with _ | q <;>
      rcases hfa : findAudioPart ps with _ | p <;>
      simp [hft, hfa] <;>
      rcases hd : p.inlineData with _ | d <;>
      by_cases hsp : env.speakerEnabled = true <;>
      simp [hd, hsp]

/-- Auxiliary: the transcript entries the `serverContent` block appends. -/
theorem handleContent_conversation (sf ar : String → Bool) (t : Nat)
    (env : CapturedCallState) (m : ServerMsg) (s : AppState) :
    (handleContent sf ar t env m s).conversation =
      s.conversation ++ textOutcome t m := by
  unfold handleContent textOutcome
  rcases hmp : m.modelTurnParts with _ | ps
  · simp
  · rcases hft : findTextPart ps with _ | q <;>
      rcases hfa : findAudioPart ps with _ | p <;>
      simp [hft, hfa] <;>
      rcases hd : p.inlineData with _ | d <;>
      by_cases hsp : env.speakerEnabled = true <;>
      simp [hd, hsp]

/-- Auxiliary: the `serverContent` block does not touch the status. -/
theorem handleContent_status (sf ar : String → Bool) (t : Nat)
    (env : CapturedCallState) (m : ServerMsg) (s : AppState) :
    (handleContent sf ar t env m s).callState.status = s.callState.status := by
  unfold handleContent
  rcases hmp : m.modelTurnParts with _ | ps
  · simp
  · rcases hft : findTextPart ps with _ | q <;>
      rcases hfa : findAudioPart ps with _ | p <;>
      simp [hft, hfa] <;>
      rcases hd : p.inlineData with _ | d <;>
      by_cases hsp : env.speakerEnabled = true <;>
      simp [hd, hsp]

/-- Auxiliary: the playback log after the whole JSON branch. -/
theorem handleServerMsg_playLog (sf ar : String → Bool) (t : Nat)
    (env : CapturedCallState) (m : ServerMsg) (s : AppState) :
    (handleServerMsg sf ar t env m s).playLog =
      s.playLog ++ playOutcome sf ar env.speakerEnabled m := by
  unfold handleServerMsg
  rw [handleSetupAck_playLog, handleContent_playLog]

/-- Auxiliary: the transcript after the whole JSON branch. -/
theorem handleServerMsg_conversation (sf ar : String → Bool) (t : Nat)
    (env : CapturedCallState) (m : ServerMsg) (s : AppState) :
    (handleServerMsg sf ar t env m s).conversation =
      s.conversation ++ textOutcome t m := by
  unfold handleServerMsg
  rw [handleSetupAck_conversation, handleContent_conversation]

/-- Claim C6, counterexample: the user starts a call, the connection
opens, the user toggles the speaker off, and then an inline-audio payload
arrives.  At the moment the payload is processed the session's current
`speakerEnabled` is `false`, yet a playback attempt is made: the gate reads
the value captured when the handlers were installed, not the current
flag. -/
theorem C6_counterexample :
    (run noFail noFail (exC6.take 4)).callState.speakerEnabled = false ∧
    (run noFail noFail exC6).playLog =
      [playAudioResponse noFail noFail "audio/pcm"] := by
  decide

/-- Claim C6, amended: for every inbound server-content payload, playback
is started iff the connection is open, the message carries an inline-audio
part, and the `speakerEnabled` value captured when the connection's
handlers were installed at call start is `true`; the session's current
`speakerEnabled` at processing time plays no role, so toggling the speaker
mid-call affects neither in-flight nor subsequent playback of that
connection. -/
theorem C6_playback_gate (sf ar : String → Bool) (s : AppState)
    (m : ServerMsg) (t : Nat) :
    (step sf ar s (Event.wsMessage (WSData.jsonMsg m) t)).playLog =
      s.playLog ++ playOutcome sf ar (wsIsOpen s && capturedSpeaker s) m := by
  unfold step wsMessageH
  rcases hws : s.ws with _ | w <;> rcases henv : s.handlersEnv with _ | env <;>
    simp [hws, henv, wsIsOpen, capturedSpeaker, playOutcome_false]
  by_cases hrs : w.readyState = ReadyState.opened <;>
    simp [hrs, handleServerMsg_playLog, playOutcome_false]

/-- Claim C8: an inbound control message carrying both a truthy text part
and an inline-audio part, processed while the connection is open and the
captured speaker flag is enabled, appends exactly one transcript entry —
at the end, so entries appear in arrival order — and makes exactly one
playback attempt. -/
theorem C8_both_parts_single (sf ar : String → Bool) (s : AppState)
    (env : CapturedCallState) (m : ServerMsg) (ps : List MsgPart)
    (p q : MsgPart) (txt mt b : String) (t : Nat)
    (hws : wsIsOpen s = true)
    (henv : s.handlersEnv = some env)
    (hspk : env.speakerEnabled = true)
    (hparts : m.modelTurnParts = some ps)
    (hfind : findTextPart ps = some p)
    (htxt : p.text = some txt)
    (hfa : findAudioPart ps = some q)
    (hq : q.inlineData = some (InlineData.mk mt b)) :
    (step sf ar s (Event.wsMessage (WSData.jsonMsg m) t)).conversation =
      s.conversation ++ [ConversationMessage.mk Speaker.AI txt t] ∧
    (step sf ar s (Event.wsMessage (WSData.jsonMsg m) t)).playLog =
      s.playLog ++ [playAudioResponse sf ar mt] := by
  have hw : ∃ w : WS, s.ws = some w ∧ w.readyState = ReadyState.opened := by
    unfold wsIsOpen at hws
    rcases hwss : s.ws with _ | w <;> rw [hwss] at hws <;> simp at hws
    exact ⟨w, rfl, hws⟩
  rcases hw with ⟨w, hw1, hw2⟩
  unfold step wsMessageH
  simp [hw1, henv, hw2, handleServerMsg_conversation, handleServerMsg_playLog,
    textOutcome, playOutcome, msgAudioMime, hparts, hfind, htxt, hfa, hq, hspk]

/-- Claim C8, witness: in the opened-connection state, the concrete message
`bothMsg` (one text part `hi`, one `audio/pcm` inline part) appends exactly
one transcript entry and one playback attempt. -/
theorem C8_witness :
    wsIsOpen sOpen = true ∧
    sOpen.handlersEnv = some (CapturedCallState.mk false true) ∧
    (step noFail noFail sOpen (Event.wsMessage (WSData.jsonMsg bothMsg) 3)).conversation =
      sOpen.conversation ++ [ConversationMessage.mk Speaker.AI "hi" 3] ∧
    (step noFail noFail sOpen (Event.wsMessage (WSData.jsonMsg bothMsg) 3)).playLog =
      sOpen.playLog ++ [playAudioResponse noFail noFail "audio/pcm"] := by
  have h := C8_both_parts_single noFail noFail sOpen (CapturedCallState.mk false true)
    bothMsg [textPartEx, audioPartEx] textPartEx audioPartEx "hi" "audio/pcm" "AAAA" 3
    (by decide) (by decide) (by decide) (by decide) (by decide) (by decide)
    (by decide) (by decide)
  exact ⟨by decide, by decide, h.1, h.2⟩

/-- Auxiliary: re-setting every track's enabled flag to the value it already
has is the identity. -/
theorem map_setTrackEnabled_id (b : Bool) (l : List Track)
    (hl : l.all (fun tr => tr.enabled == b) = true) :
    l.map (setTrackEnabled b) = l := by
  induction l with
  | nil => rfl
  | cons tr rest ih =>
    rcases tr with ⟨e, st⟩
    simp [List.all_cons, setTrackEnabled] at hl ⊢
    exact ⟨hl.1.symm, ih (by simpa using hl.2)⟩

/-- Claim C10: toggling mute on an active media stream flips `isMuted` and
sets every audio track's enabled flag to the pre-toggle `isMuted` — the
negation of the new `isMuted`, so the hardware track is disabled exactly
when the session is muted — and, when the tracks' flags agree with the
session as they always do on an acquired stream, two consecutive toggles
restore the whole state. -/
theorem C10_toggleMute_tracks (s : AppState) (ms : MediaStream)
    (h : s.mediaStream = some ms)
    (hcons : ms.tracks.all (fun tr => tr.enabled == !s.callState.isMuted) = true) :
    (toggleMute s).callState.isMuted = !s.callState.isMuted ∧
    (toggleMute s).mediaStream =
      some (MediaStream.mk (ms.tracks.map (setTrackEnabled s.callState.isMuted))) ∧
    ((ms.tracks.map (setTrackEnabled s.callState.isMuted)).all
      (fun tr => tr.enabled == !((toggleMute s).callState.isMuted))) = true ∧
    toggleMute (toggleMute s) = s := by
  refine ⟨by simp [toggleMute], by simp [toggleMute, h], ?_, ?_⟩
  · simp [toggleMute, setTrackEnabled, List.all_eq_true]
  · rcases s with ⟨⟨act, stt, dur, mtd, spk, stat⟩, conv, recg, modal, ws, msOpt,
      mr, env, p1, p2, l1, l2, l3, l4⟩
    subst h
    simp only [toggleMute, Bool.not_not]
    have hmap : (ms.tracks.map (setTrackEnabled mtd)).map (setTrackEnabled (!mtd)) =
        ms.tracks := by
      rw [List.map_map]
      have hcomp : setTrackEnabled (!mtd) ∘ setTrackEnabled mtd =
          setTrackEnabled (!mtd) := rfl
      rw [hcomp]
      exact map_setTrackEnabled_id (!mtd) ms.tracks hcons
    simp [hmap]

/-- Claim C10, witness: on the freshly acquired stream of a started call,
one toggle mutes (and disables the track), two toggles restore the starting
state exactly. -/
theorem C10_witness :
    sStarted.mediaStream = some freshStream ∧
    freshStream.tracks.all
      (fun tr => tr.enabled == !sStarted.callState.isMuted) = true ∧
    (toggleMute sStarted).callState.isMuted = !sStarted.callState.isMuted ∧
    toggleMute (toggleMute sStarted) = sStarted := by
  have h := C10_toggleMute_tracks sStarted freshStream (by decide) (by decide)
  exact ⟨by decide, by decide, h.1, h.2.2.2⟩

/-- Auxiliary: the status after the whole JSON branch. -/
theorem handleServerMsg_status (sf ar : String → Bool) (t : Nat)
    (env : CapturedCallState) (m : ServerMsg) (s : AppState) :
    (handleServerMsg sf ar t env m s).callState.status =
      if m.setupComplete then Status.connected else s.callState.status := by
  unfold handleServerMsg
  rw [handleSetupAck_status, handleContent_status]

/-- Auxiliary: the fields the setup-send timeout can never touch. -/
theorem fireSetupSend_frame (s : AppState) :
    (fireSetupSend s).callState = s.callState ∧
    (fireSetupSend s).ws = s.ws ∧
    (fireSetupSend s).mediaStream = s.mediaStream ∧
    (fireSetupSend s).mediaRecorder = s.mediaRecorder ∧
    (fireSetupSend s).pendingRecorderStart = s.pendingRecorderStart ∧
    ((fireSetupSend s).sentLog = s.sentLog ∨
      (fireSetupSend s).sentLog = s.sentLog ++ [OutMessage.setup]) := by
  unfold fireSetupSend
  by_cases hp : s.pendingSetupSend = true <;>
    by_cases hw : wsIsOpen { s with pendingSetupSend := false } = true <;>
    simp [hp, hw]

/-- Auxiliary: the fields the recorder-start timeout can never touch. -/
theorem fireRecorderStart_frame (s : AppState) :
    (fireRecorderStart s).callState = s.callState ∧
    (fireRecorderStart s).ws = s.ws ∧
    (fireRecorderStart s).mediaStream = s.mediaStream ∧
    (fireRecorderStart s).sentLog = s.sentLog := by
  unfold fireRecorderStart
  by_cases hp : s.pendingRecorderStart = true <;>
    by_cases hc : (s.mediaStream.isSome &&
      wsIsOpen { s with pendingRecorderStart := false }) = true <;>
    simp [hp, hc]

/-- Auxiliary: a recorder chunk only ever appends to the sent log. -/
theorem dataAvailableH_core (n : Nat) (s : AppState) :
    (dataAvailableH n s).core = s.core := by
  unfold dataAvailableH sendAudioData
  rcases hrec : s.mediaRecorder with _ | r <;>
    rcases henv : s.handlersEnv with _ | env <;>
    simp [hrec, henv, AppState.core] <;>
    by_cases h1 : 0 < n ∧ wsIsOpen s = true ∧ env.isMuted = false <;>
    by_cases h2 : wsIsOpen s = true <;>
    by_cases h3 : 0 < n ∧ env.isMuted = false <;>
    simp [h1, h2, h3, AppState.core, hrec, henv]

/-- Auxiliary: non-acknowledgment messages never touch the status. -/
theorem wsMessageH_status (sf ar : String → Bool) (d : WSData) (t : Nat)
    (s : AppState)
    (hd : Event.isSetupAck (Event.wsMessage d t) = false) :
    (wsMessageH sf ar d t s).callState.status = s.callState.status := by
  unfold wsMessageH
  rcases hws : s.ws with _ | w <;> rcases henv : s.handlersEnv with _ | env <;>
    simp [hws, henv]
  by_cases hrs : w.readyState = ReadyState.opened <;> simp [hrs]
  cases d with
  | binary size => by_cases hsp : env.speakerEnabled = true <;> simp [hsp]
  | jsonMsg m =>
    have hsc : m.setupComplete = false := by
      simpa [Event.isSetupAck] using hd
    rw [handleServerMsg_status, hsc]
    simp
  | malformed => rfl

/-- Auxiliary: apart from `onopen` and the `setupComplete` branch, no
handler sets status `'connected'`. -/
theorem status_connected_of_step (sf ar : String → Bool) (s : AppState)
    (e : Event) (he : Event.opensOrAck e = false)
    (h : (step sf ar s e).callState.status = Status.connected) :
    s.callState.status = Status.connected := by
  cases e with
  | wsOpen => simp [Event.opensOrAck] at he
  | clickStartCall pd media t =>
    unfold step startCall at h
    by_cases hpd : pd = true
    · simpa [hpd] using h
    · simp [hpd] at h
      cases media <;>
        simp [connectToLiveAPI, endCall, initialCallState] at h
  | fireSetup =>
    have hf := (fireSetupSend_frame s).1
    unfold step at h
    rw [hf] at h
    exact h
  | wsMessage d t =>
    have hm : Event.isSetupAck (Event.wsMessage d t) = false := by
      cases d with
      | binary size => rfl
      | jsonMsg m => simpa [Event.opensOrAck, Event.isSetupAck] using he
      | malformed => rfl
    unfold step at h
    rw [wsMessageH_status sf ar d t s hm] at h
    exact h
  | fireRecorder =>
    have hf := (fireRecorderStart_frame s).1
    unfold step at h
    rw [hf] at h
    exact h
  | dataAvailable n =>
    have hf := congrArg CoreState.callState (dataAvailableH_core n s)
    unfold step at h
    rw [show (dataAvailableH n s).core.callState = (dataAvailableH n s).callState
        from rfl,
      show (AppState.core s).callState = s.callState from rfl] at hf
    rw [hf] at h
    exact h
  | wsClose =>
    unfold step wsCloseH at h
    rcases hws : s.ws with _ | w <;> rw [hws] at h <;> simp_all
  | wsError =>
    unfold step wsErrorH at h
    rcases hws : s.ws with _ | w <;> rw [hws] at h <;> simp_all
  | clickEndCall => simp [step, endCall, initialCallState] at h
  | clickToggleMute => exact h
  | clickToggleSpeaker => exact h

/-- Auxiliary: a run containing no open report and no handshake ack never
reaches status connected. -/
theorem runFrom_status_not_connected (sf ar : String → Bool) (es : List Event) :
    ∀ s : AppState, es.all (fun e => !(Event.opensOrAck e)) = true →
      s.callState.status ≠ Status.connected →
      (runFrom sf ar s es).callState.status ≠ Status.connected := by
  induction es with
  | nil => intro s _ h; exact h
  | cons e rest ih =>
    intro s hall h
    rw [List.all_cons, Bool.and_eq_true] at hall
    have h1 : Event.opensOrAck e = false := by simpa using hall.1
    have hstep : runFrom sf ar s (e :: rest) = runFrom sf ar (step sf ar s e) rest := rfl
    rw [hstep]
    exact ih (step sf ar s e) hall.2
      (fun hc => h (status_connected_of_step sf ar s e h1 hc))

/-- Claim C1, counterexample: in the run where the call starts and the
transport merely reports open — no `setupComplete` message is ever
received — the status is already `connected`, so status `connected` does
not imply a prior `setupComplete`. -/
theorem C1_counterexample :
    (run noFail noFail exC1).callState.status = Status.connected ∧
    exC1.all (fun e => !(Event.isSetupAck e)) = true := by
  decide

/-- Claim C1, amended: the status becomes `connected` when the transport
reports open — before any handshake acknowledgment — and again when a
`setupComplete` message is received; hence status `connected` in a run
implies only that the connection reported open or a `setupComplete`
arrived earlier in that run. -/
theorem C1_connected_needs_open_or_ack (sf ar : String → Bool)
    (es : List Event)
    (h : (run sf ar es).callState.status = Status.connected) :
    es.any Event.opensOrAck = true := by
  by_contra hc
  have hall : es.all (fun e => !(Event.opensOrAck e)) = true := by
    rw [List.all_eq_true]
    intro e hmem
    cases hx : Event.opensOrAck e
    · simp
    · exact absurd (by rw [List.any_eq_true]; exact ⟨e, hmem, hx⟩) hc
  exact runFrom_status_not_connected sf ar es initialState hall
    (by simp [initialState, initialCallState]) h

/-- Claim C1, witness: the open-only run has status `connected` and indeed
contains an open report. -/
theorem C1_witness :
    (run noFail noFail exC1).callState.status = Status.connected ∧
    exC1.any Event.opensOrAck = true :=
  ⟨by decide, C1_connected_needs_open_or_ack noFail noFail exC1 (by decide)⟩

/-- Auxiliary: frame of the `serverContent` block — recorder, pending flag
and sent log are untouched. -/
theorem handleContent_frame (sf ar : String → Bool) (t : Nat)
    (env : CapturedCallState) (m : ServerMsg) (s : AppState) :
    (handleContent sf ar t env m s).mediaRecorder = s.mediaRecorder ∧
    (handleContent sf ar t env m s).pendingRecorderStart =
      s.pendingRecorderStart ∧
    (handleContent sf ar t env m s).sentLog = s.sentLog := by
  unfold handleContent
  rcases hmp : m.modelTurnParts with _ | ps
  · exact ⟨rfl, rfl, rfl⟩
  · rcases hft : findTextPart ps with _ | q <;>
      rcases hfa : findAudioPart ps with _ | p <;>
      simp [hft, hfa] <;>
      rcases hd : p.inlineData with _ | d <;>
      by_cases hsp : env.speakerEnabled = true <;>
      simp [hd, hsp]

/-- Auxiliary: frame of the `setupComplete` block — recorder and sent log
are untouched. -/
theorem handleSetupAck_frame (m : ServerMsg) (s : AppState) :
    (handleSetupAck m s).mediaRecorder = s.mediaRecorder ∧
    (handleSetupAck m s).sentLog = s.sentLog := by
  unfold handleSetupAck
  by_cases hsc : m.setupComplete = true <;> simp [hsc] <;> split <;> simp

/-- Auxiliary: without a `setupComplete`, the block does not arm the
recorder-start timeout. -/
theorem handleSetupAck_pending (m : ServerMsg) (s : AppState)
    (hsc : m.setupComplete = false) :
    (handleSetupAck m s).pendingRecorderStart = s.pendingRecorderStart := by
  unfold handleSetupAck
  simp [hsc]

/-- Auxiliary: pointwise form of the no-audio log invariant. -/
theorem no_audio_forall (l : List OutMessage)
    (hl : l.all (fun x => !(OutMessage.isAudio x)) = true) :
    ∀ x ∈ l, OutMessage.isAudio x = false := by
  intro x hx
  simpa using List.all_eq_true.mp hl x hx

/-- Auxiliary: appending the setup envelope keeps the log audio-free. -/
theorem all_no_audio_append_setup (l : List OutMessage)
    (hl : l.all (fun x => !(OutMessage.isAudio x)) = true) :
    (l ++ [OutMessage.setup]).all (fun x => !(OutMessage.isAudio x)) = true := by
  rw [List.all_append, hl]
  rfl

/-- Auxiliary: one step that is not the arrival of a `setupComplete`
message preserves: no recorder, timeout not armed, no audio in the sent
log. -/
theorem step_no_audio (sf ar : String → Bool) (s : AppState) (e : Event)
    (he : Event.isSetupAck e = false)
    (hrec : s.mediaRecorder = none)
    (hpend : s.pendingRecorderStart = false)
    (hlog : s.sentLog.all (fun x => !(OutMessage.isAudio x)) = true) :
    (step sf ar s e).mediaRecorder = none ∧
    (step sf ar s e).pendingRecorderStart = false ∧
    (step sf ar s e).sentLog.all (fun x => !(OutMessage.isAudio x)) = true := by
  cases e with
  | clickStartCall pd media t =>
    unfold step startCall
    by_cases hpd : pd = true
    · simp [hpd, hrec, hpend, hlog]
    · cases media <;>
        simp [hpd, connectToLiveAPI, endCall, hrec, hpend, hlog]
  | wsOpen =>
    unfold step wsOpenH
    rcases hws : s.ws with _ | w
    · simp [hws, hrec, hpend, hlog]
    · by_cases hrs : w.readyState = ReadyState.connecting <;>
        simp [hws, hrs, hrec, hpend, hlog]
  | fireSetup =>
    have hf := fireSetupSend_frame s
    unfold step
    refine ⟨hf.2.2.2.1.trans hrec, hf.2.2.2.2.1.trans hpend, ?_⟩
    rcases hf.2.2.2.2.2 with hl | hl <;> rw [hl]
    · exact hlog
    · exact all_no_audio_append_setup s.sentLog hlog
  | wsMessage d t =>
    unfold step wsMessageH
    rcases hws : s.ws with _ | w
    · exact ⟨hrec, hpend, hlog⟩
    rcases henv : s.handlersEnv with _ | env
    · exact ⟨hrec, hpend, hlog⟩
    dsimp only
    by_cases hrs : w.readyState = ReadyState.opened
    case neg => rw [if_neg hrs]; exact ⟨hrec, hpend, hlog⟩
    rw [if_pos hrs]
    cases d with
    | binary size =>
      dsimp only
      by_cases hsp : env.speakerEnabled = true
      · rw [if_pos hsp]; exact ⟨hrec, hpend, hlog⟩
      · rw [if_neg hsp]; exact ⟨hrec, hpend, hlog⟩
    | jsonMsg m =>
      have hsc : m.setupComplete = false := by
        simpa [Event.isSetupAck] using he
      have h1 := handleContent_frame sf ar t env m s
      have h2 := handleSetupAck_frame m (handleContent sf ar t env m s)
      have h3 := handleSetupAck_pending m (handleContent sf ar t env m s) hsc
      refine ⟨h2.1.trans (h1.1.trans hrec), h3.trans (h1.2.1.trans hpend), ?_⟩
      show (handleSetupAck m (handleContent sf ar t env m s)).sentLog.all
        (fun x => !(OutMessage.isAudio x)) = true
      rw [h2.2, h1.2.2]
      exact hlog
    | malformed => exact ⟨hrec, hpend, hlog⟩
  | fireRecorder =>
    unfold step fireRecorderStart
    simp [hpend, hrec, hlog]
  | dataAvailable n =>
    unfold step dataAvailableH
    simp [hrec, hpend, hlog]
  | wsClose =>
    unfold step wsCloseH
    rcases hws : s.ws with _ | w <;> simp [hws, hrec, hpend, hlog]
  | wsError =>
    unfold step wsErrorH
    rcases hws : s.ws with _ | w <;> simp [hws, hrec, hpend, hlog]
  | clickEndCall => simp [step, endCall, hrec, hpend, hlog]
  | clickToggleMute => simp [step, toggleMute, hrec, hpend, hlog]
  | clickToggleSpeaker => simp [step, toggleSpeaker, hrec, hpend, hlog]

/-- Auxiliary: a run with no `setupComplete` arrival keeps the no-audio
invariant. -/
theorem runFrom_no_audio (sf ar : String → Bool) (es : List Event) :
    ∀ s : AppState, es.all (fun e => !(Event.isSetupAck e)) = true →
      s.mediaRecorder = none → s.pendingRecorderStart = false →
      s.sentLog.all (fun x => !(OutMessage.isAudio x)) = true →
      (runFrom sf ar s es).sentLog.all (fun x => !(OutMessage.isAudio x)) = true := by
  induction es with
  | nil => intro s _ _ _ hlog; exact hlog
  | cons e rest ih =>
    intro s hall hrec hpend hlog
    rw [List.all_cons, Bool.and_eq_true] at hall
    have h1 : Event.isSetupAck e = false := by simpa using hall.1
    have hstep := step_no_audio sf ar s e h1 hrec hpend hlog
    exact ih (step sf ar s e) hall.2 hstep.1 hstep.2.1 hstep.2.2

/-- Claim C2: in every run of the session in which no `setupComplete`
control message is received, no `realtimeInput`/`mediaChunks` audio
envelope is ever written to the connection; applied to each prefix of a run
that ends before its first `setupComplete`, this is exactly: no outbound
audio chunk is sent before the handshake acknowledgment.  The capture
forwarding path exists only through the recorder armed in the
`setupComplete` branch. -/
theorem C2_no_audio_before_ack (sf ar : String → Bool) (es : List Event)
    (h : es.all (fun e => !(Event.isSetupAck e)) = true) :
    (run sf ar es).sentLog.all (fun x => !(OutMessage.isAudio x)) = true :=
  runFrom_no_audio sf ar es initialState h rfl rfl rfl

/-- Claim C2, witness: the run that starts a call, opens, sends setup, and
receives a recorder chunk — but never a `setupComplete` — has sent no
audio envelope (only the setup envelope). -/
theorem C2_witness :
    exC2.all (fun e => !(Event.isSetupAck e)) = true ∧
    (run noFail noFail exC2).sentLog.all
      (fun x => !(OutMessage.isAudio x)) = true :=
  ⟨by decide, C2_no_audio_before_ack noFail noFail exC2 (by decide)⟩

/-- Auxiliary: once the connection is gone or closed, any step other than a
new start-call click keeps it gone or closed and sends nothing. -/
theorem step_wsDown (sf ar : String → Bool) (s : AppState) (e : Event)
    (he : Event.isStartClick e = false) (hd : wsDown s) :
    wsDown (step sf ar s e) ∧ (step sf ar s e).sentLog = s.sentLog := by
  have hopen : wsIsOpen s = false := by
    rcases hd with h | h <;> simp [wsIsOpen, h]
  cases e with
  | clickStartCall pd media t => simp [Event.isStartClick] at he
  | wsOpen =>
    unfold step wsOpenH
    rcases hd with h | h <;> simp [h, wsDown]
  | fireSetup =>
    unfold step fireSetupSend
    have hopen2 : wsIsOpen { s with pendingSetupSend := false } = false := by
      rcases hd with h | h <;> simp [wsIsOpen, h]
    by_cases hp : s.pendingSetupSend = true <;>
      simp [hp, hopen2, wsDown] <;> exact hd
  | wsMessage d t =>
    unfold step wsMessageH
    rcases henv : s.handlersEnv with _ | env <;>
      rcases hd with h | h <;>
      simp [h, henv, wsDown]
  | fireRecorder =>
    unfold step fireRecorderStart
    have hopen2 : wsIsOpen { s with pendingRecorderStart := false } = false := by
      rcases hd with h | h <;> simp [wsIsOpen, h]
    by_cases hp : s.pendingRecorderStart = true <;>
      simp [hp, hopen2, wsDown] <;> exact hd
  | dataAvailable n =>
    unfold step dataAvailableH sendAudioData
    rcases hrec : s.mediaRecorder with _ | r <;>
      rcases henv : s.handlersEnv with _ | env <;>
      simp [hrec, henv, hopen, wsDown] <;> exact hd
  | wsClose =>
    unfold step wsCloseH
    rcases hd with h | h <;> simp [h, wsDown]
  | wsError =>
    unfold step wsErrorH
    rcases hd with h | h <;> simp [h, wsDown]
  | clickEndCall => simp [step, endCall, wsDown]
  | clickToggleMute => simp [step, toggleMute, wsDown]; exact hd
  | clickToggleSpeaker => simp [step, toggleSpeaker, wsDown]; exact hd

/-- Auxiliary: after the connection is down, a run without a new start-call
click sends nothing further. -/
theorem runFrom_wsDown (sf ar : String → Bool) (es : List Event) :
    ∀ s : AppState, es.all (fun e => !(Event.isStartClick e)) = true →
      wsDown s → (runFrom sf ar s es).sentLog = s.sentLog := by
  induction es with
  | nil => intro s _ _; rfl
  | cons e rest ih =>
    intro s hall hd
    rw [List.all_cons, Bool.and_eq_true] at hall
    have h1 : Event.isStartClick e = false := by simpa using hall.1
    have hstep := step_wsDown sf ar s e h1 hd
    calc (runFrom sf ar (step sf ar s e) rest).sentLog
        = (step sf ar s e).sentLog := ih (step sf ar s e) hall.2 hstep.1
      _ = s.sentLog := hstep.2

/-- Claim C4, counterexample: after the connection errors during a
connected call, the status does become `disconnected`, but no teardown
happens: the media-stream reference is still held, its track is neither
stopped nor released, and the recorder reference is still held — the
device is released only by the explicit end-call operation. -/
theorem C4_counterexample :
    (run noFail noFail exC4).callState.status = Status.disconnected ∧
    (run noFail noFail exC4).mediaStream = some freshStream ∧
    freshStream.tracks.all (fun tr => !tr.stopped) = true ∧
    (run noFail noFail exC4).mediaRecorder.isSome = true := by
  decide

/-- Claim C4, amended: when the connection reports an error while a socket
is held, the handler sets status `disconnected` and, the connection being
closed, no further audio chunk is sent for the rest of the run (unless a
new call is started); but the handler performs no teardown — the capture
device is left untouched, its tracks neither stopped nor released; only
the explicit end-call operation releases them. -/
theorem C4_error_no_teardown (sf ar : String → Bool) (s : AppState) (w : WS)
    (h : s.ws = some w) :
    (step sf ar s Event.wsError).callState.status = Status.disconnected ∧
    (step sf ar s Event.wsError).mediaStream = s.mediaStream ∧
    wsDown (step sf ar s Event.wsError) ∧
    ∀ es : List Event, es.all (fun e => !(Event.isStartClick e)) = true →
      (runFrom sf ar (step sf ar s Event.wsError) es).sentLog =
        (step sf ar s Event.wsError).sentLog := by
  have hs : step sf ar s Event.wsError =
      { s with
        ws := some (WS.mk ReadyState.closed)
        callState := { s.callState with status := Status.disconnected }
        toastLog := s.toastLog ++ [ToastTag.erroConexao] } := by
    unfold step wsErrorH
    rw [h]
  refine ⟨by rw [hs], by rw [hs], by rw [hs]; exact Or.inr rfl, ?_⟩
  intro es hes
  exact runFrom_wsDown sf ar es (step sf ar s Event.wsError) hes
    (by rw [hs]; exact Or.inr rfl)

/-- Claim C4, witness: at the concrete pre-error state of `exC4` the error
event yields status `disconnected`, leaves the stream reference in place,
and a subsequent recorder chunk is not sent. -/
theorem C4_witness :
    sPreErr.ws = some (WS.mk ReadyState.opened) ∧
    (step noFail noFail sPreErr Event.wsError).callState.status =
      Status.disconnected ∧
    (step noFail noFail sPreErr Event.wsError).mediaStream =
      sPreErr.mediaStream ∧
    (runFrom noFail noFail (step noFail noFail sPreErr Event.wsError)
        [Event.dataAvailable 7]).sentLog =
      (step noFail noFail sPreErr Event.wsError).sentLog := by
  have h := C4_error_no_teardown noFail noFail sPreErr
    (WS.mk ReadyState.opened) (by decide)
  exact ⟨by decide, h.1, h.2.1, h.2.2.2 [Event.dataAvailable 7] (by decide)⟩

end AudioCall
